import Mathlib

/-!
Shallow embedding of `src/WIN32-MSVC/payrange_solution1.c`.

The program keeps three pieces of shared state:
  * `currentRandomNumberFromTaskA : int64_t` — the 12-digit value published by
    task A (modelled here as the pure value computed by one tick of task A);
  * `taskBStructure[5]` — the slow token cache (stringTime and stringPlacer per slot);
  * `valueEStructure[7]` — the record cache F (randomValueB and currentValueD per slot).

C arrays are modelled as total functions `Nat → _`; the code only ever reads
and writes indices below the declared capacities.  `rand()` draws are modelled
as explicit natural-number arguments (streams `Nat → Nat` where a loop draws
repeatedly); on the target platform `rand()` returns a non-negative `int`, so
a draw is a natural number below `2 ^ 31`.  The unbounded
`while (!foundValidValueB)` loop of `handleInterruptC` is modelled with an
explicit fuel parameter: the loop body terminates with a slot only when the
modelled recursion returns `some`, and returning `none` for every fuel value
means the C loop never exits.
-/

namespace PayRange

/-- Constant `NUMBER_OF_ALPHANUMERIC_DIGITS` = 8 from the source. -/
def NUMBER_OF_ALPHANUMERIC_DIGITS : Nat := 8

/-- Constant `SIZE_OF_THE_TASK_B_ARRAY` = 5 from the source. -/
def SIZE_OF_THE_TASK_B_ARRAY : Nat := 5

/-- Constant `SIZE_OF_VALUE_E_STRUCTURE` = 7 from the source. -/
def SIZE_OF_VALUE_E_STRUCTURE : Nat := 7

/-- Structure `taskBStructure_t` with fields `TickType_t stringTime` and
`char stringPlacer[8]`.  Ticks are natural numbers; the C string is the list
of its characters. -/
structure taskBStructure_t where
  stringTime : Nat
  stringPlacer : List Char
deriving DecidableEq

/-- Structure `valueD_t` with fields `TickType_t randomNumberTime` and
`int64_t randomNumber`. -/
structure valueD_t where
  randomNumberTime : Nat
  randomNumber : Int
deriving DecidableEq

/-- Structure `valueE_t` with fields `taskBStructure_t randomValueB` and
`valueD_t currentValueD`. -/
structure valueE_t where
  randomValueB : taskBStructure_t
  currentValueD : valueD_t
deriving DecidableEq

/-- Function `generateIntRandomNumber(max)` is `rand() % max`; the draw `r` stands for
the `rand()` call (non-negative on the source platform). -/
def generateIntRandomNumber (max r : Nat) : Nat := r % max

/-- The character-set dictionary of `generateRandomString`. -/
def charset : List Char :=
  "abcdefghijklmnopqrstuvwxyzABCDEFGHIJKLMNOPQRSTUVWXYZ0123456789".toList

/-- Length `charsetLength = sizeof(charset) - 1` (the characters before the NUL). -/
def charsetLength : Nat := charset.length

/-- Function `generateRandomString(s, length)` fills `s[0..length-1]` with
`charset[rand() % charsetLength]`; `draws i` is the `rand()` call of
iteration `i`.  The result is the written character list (the C code then
NUL-terminates it). -/
def generateRandomString (draws : Nat → Nat) (length : Nat) : List Char :=
  (List.range length).map (fun i => charset.getD (draws i % charsetLength) 'a')

/-- One tick of `privateTaskA`: `g = rand(); g = (g << 32 | rand());
g = (g % 899999999999) + 100000000000;` published as
`currentRandomNumberFromTaskA`.  With both draws below `2 ^ 31` the whole
computation stays below `2 ^ 63`, so the C `int64_t` arithmetic agrees with
this natural-number computation. -/
def privateTaskA_value (r1 r2 : Nat) : Nat :=
  ((r1 <<< 32) ||| r2) % 899999999999 + 100000000000

/-- The slot index `privateTaskB` stores into:
`generateIntRandomNumber(SIZE_OF_THE_TASK_B_ARRAY - 1)`. -/
def privateTaskB_slot (r : Nat) : Nat :=
  generateIntRandomNumber (SIZE_OF_THE_TASK_B_ARRAY - 1) r

/-- One tick of `privateTaskB`: generate the alphanumeric, read the tick
count, pick the slot, overwrite `taskBStructure[slot]`. -/
def privateTaskB_tick (B : Nat → taskBStructure_t) (draws : Nat → Nat)
    (rSlot tick : Nat) : Nat → taskBStructure_t :=
  let s := generateRandomString draws NUMBER_OF_ALPHANUMERIC_DIGITS
  let slot := privateTaskB_slot rSlot
  fun i => if i = slot then ⟨tick, s⟩ else B i

/-- The `while (!foundValidValueB)` loop of `handleInterruptC`: draw
`randomSlotB = generateIntRandomNumber(SIZE_OF_THE_TASK_B_ARRAY)` and accept
it unless `taskBStructure[randomSlotB].stringTime == 0`.  `draws k` is the
`rand()` call of attempt `k`; `fuel` bounds the number of attempts modelled:
the C loop returns a slot exactly when this recursion returns `some` for
some fuel. -/
def findValidBSlot (B : Nat → taskBStructure_t) (draws : Nat → Nat) :
    Nat → Nat → Option Nat
  | _, 0 => none
  | k, n + 1 =>
    let randomSlotB := generateIntRandomNumber SIZE_OF_THE_TASK_B_ARRAY (draws k)
    if (B randomSlotB).stringTime = 0 then
      findValidBSlot B draws (k + 1) n
    else
      some randomSlotB

/-- The destination slot of `handleInterruptC`:
`generateIntRandomNumber(SIZE_OF_VALUE_E_STRUCTURE - 1)`. -/
def handleInterruptC_slotF (r : Nat) : Nat :=
  generateIntRandomNumber (SIZE_OF_VALUE_E_STRUCTURE - 1) r

/-- Function `handleInterruptC`: snapshot `valueD` from the tick count and `currentRandomNumberFromTaskA`,
find an occupied B slot (the unbounded loop, here fuelled), pick `randomSlotF`
and form the record stored into `valueEStructure[randomSlotF]`.  Returns the
chosen F slot and the stored record; `none` when the loop is still running
after `fuel` attempts. -/
def handleInterruptC (A : Int) (tick : Nat) (B : Nat → taskBStructure_t)
    (draws : Nat → Nat) (rF fuel : Nat) : Option (Nat × valueE_t) :=
  match findValidBSlot B draws 0 fuel with
  | none => none
  | some randomSlotB =>
    let valueDStructure : valueD_t := ⟨tick, A⟩
    let randomSlotF := handleInterruptC_slotF rF
    some (randomSlotF, ⟨B randomSlotB, valueDStructure⟩)

/-- The in-place store `valueEStructure[randomSlotF] = e` of `handleInterruptC`
(lines 360–363 copy the four fields). -/
def updateSlotF (F : Nat → valueE_t) (slot : Nat) (e : valueE_t) :
    Nat → valueE_t :=
  fun i => if i = slot then e else F i

/-- The lookup scan of `handleInterruptG`: the loop runs
`for (i = 0; i < SIZE_OF_VALUE_E_STRUCTURE - 1; i++)` and prints the B value
of every slot whose `currentValueD.randomNumber` equals the queried value.
The result list holds the printed B values, in loop order. -/
def handleInterruptG_results (F : Nat → valueE_t) (q : Int) :
    List taskBStructure_t :=
  ((List.range (SIZE_OF_VALUE_E_STRUCTURE - 1)).filter
      (fun i => (F i).currentValueD.randomNumber == q)).map
    (fun i => (F i).randomValueB)

/-- Flag `userInputFound` after the scan: at least one slot matched. -/
def handleInterruptG_found (F : Nat → valueE_t) (q : Int) : Bool :=
  !(handleInterruptG_results F q).isEmpty

/-- The on-disk state of `E.txt`: whether `fopen("E.txt", "r")` succeeds, and
the lines, each modelled as its line number together with the record whose
fields the line prints. -/
structure FileState where
  onDisk : Bool
  lines : List (Nat × valueE_t)
deriving DecidableEq

/-- Function `writeToFileE`: re-open for append when the file exists and
`fileELineNumber != 0`, otherwise create/truncate; print the record with the
current `fileELineNumber`; increment the counter.  The state is the file
paired with `fileELineNumber`. -/
def writeToFileE (st : FileState × Nat) (e : valueE_t) : FileState × Nat :=
  match st with
  | (fs, n) =>
    if fs.onDisk && n != 0 then
      (⟨true, fs.lines ++ [(n, e)]⟩, n + 1)
    else
      (⟨true, [(n, e)]⟩, n + 1)

/-- A run of appends: `main_payrange` initialises `fileELineNumber = 0`, then
each capture appends one record. -/
def runAppends (fs0 : FileState) (recs : List valueE_t) : FileState × Nat :=
  recs.foldl writeToFileE (fs0, 0)

/-- The expected numbering: line numbers from `n` upward, one per record. -/
def numberedFrom (n : Nat) : List valueE_t → List (Nat × valueE_t)
  | [] => []
  | e :: es => (n, e) :: numberedFrom (n + 1) es

/-- A zero-initialised `valueE_t` (the global `valueEStructure` before any
capture: C zero-initialises globals). -/
def emptyE : valueE_t := ⟨⟨0, []⟩, ⟨0, 0⟩⟩

/-- A `taskBStructure` cache where no slot has ever been written. -/
def emptyTaskB_cache : Nat → taskBStructure_t := fun _ => ⟨0, []⟩

/-- A record cache F whose only occupied slot is the last one, index 6. -/
def slot6F : Nat → valueE_t :=
  fun i => if i = 6 then ⟨⟨10, "Ab12xyz".toList⟩, ⟨20, 123456789012⟩⟩ else emptyE

/-- A record cache F where slots 0 and 1 both hold the queried value
111111111111, paired with two different B values. -/
def dupF : Nat → valueE_t :=
  fun i =>
    if i = 0 then ⟨⟨10, "aaaaaaaa".toList⟩, ⟨20, 111111111111⟩⟩
    else if i = 1 then ⟨⟨30, "bbbbbbbb".toList⟩, ⟨40, 111111111111⟩⟩
    else emptyE

/-- A slow-token cache whose only occupied slot is slot 2 (the scenario of
the design notes: one token, generated at tick 10). -/
def scenarioB : Nat → taskBStructure_t :=
  fun i => if i = 2 then ⟨10, "Ab12xyz".toList⟩ else ⟨0, []⟩

/-- The record formed by a capture at value 555555555555, tick 20, pairing
the token of `scenarioB` slot 2. -/
def scenarioE : valueE_t := ⟨⟨10, "Ab12xyz".toList⟩, ⟨20, 555555555555⟩⟩

/-- Every slot index the scan of `handleInterruptG` visits and whose record
matches the query contributes its B value to the printed results. -/
theorem mem_results_of_scanned_match (F : Nat → valueE_t) (q : Int) (i : Nat)
    (hi : i < SIZE_OF_VALUE_E_STRUCTURE - 1)
    (hm : (F i).currentValueD.randomNumber = q) :
    (F i).randomValueB ∈ handleInterruptG_results F q := by
  unfold handleInterruptG_results
  exact List.mem_map_of_mem _
    (List.mem_filter.mpr ⟨List.mem_range.mpr hi, by simp [hm]⟩)

/-- Claim C1.  The claim says the lookup of `handleInterruptG` scans all 7
slots of RecordCache F, so that a record stored in the last slot (index 6)
is found.  The code iterates `i < SIZE_OF_VALUE_E_STRUCTURE - 1`, i.e. only
slots 0..5: on a cache whose only occupied slot is index 6 and whose record
holds exactly the queried value, the scan reports nothing and
`userInputFound` stays false. -/
theorem C1_lookup_misses_slot_six :
    (slot6F 6).currentValueD.randomNumber = 123456789012 ∧
    handleInterruptG_results slot6F 123456789012 = [] ∧
    handleInterruptG_found slot6F 123456789012 = false := by
  refine ⟨by decide, by decide, by decide⟩

/-- Claim C2.  The claim says the slot overwritten by a `privateTaskB` tick
is drawn uniformly over all 5 slots, slot 4 included.  The code draws
`rand() % (SIZE_OF_THE_TASK_B_ARRAY - 1)`, so the written slot is always
below 4 and index 4 is never the target. -/
theorem C2_taskB_slot_never_four :
    ∀ r : Nat, privateTaskB_slot r < SIZE_OF_THE_TASK_B_ARRAY - 1 ∧
      privateTaskB_slot r ≠ 4 := by
  intro r
  have h : privateTaskB_slot r < 4 := Nat.mod_lt r (by decide)
  exact ⟨h, Nat.ne_of_lt h⟩

/-- Claim C3.  The claim says the destination slot of a capture is drawn
uniformly over all 7 slots of RecordCache F, slot 6 included.  The code
draws `rand() % (SIZE_OF_VALUE_E_STRUCTURE - 1)`, so the written slot is
always below 6 and index 6 is never the target. -/
theorem C3_capture_slotF_never_six :
    ∀ r : Nat, handleInterruptC_slotF r < SIZE_OF_VALUE_E_STRUCTURE - 1 ∧
      handleInterruptC_slotF r ≠ 6 := by
  intro r
  have h : handleInterruptC_slotF r < 6 := Nat.mod_lt r (by decide)
  exact ⟨h, Nat.ne_of_lt h⟩

/-- Claim C4.  The claim says a capture triggered on an entirely empty
SlowTokenCache terminates within a bounded number of sampling attempts and
reports capture unavailable.  The code resamples in an unbounded
`while (!foundValidValueB)` loop: on the never-written cache the loop body
never exits, i.e. for every bound on the number of attempts and every draw
sequence the modelled loop is still running (`none`), and the capture never
produces a result. -/
theorem C4_empty_cache_capture_never_terminates :
    ∀ (A : Int) (tick : Nat) (draws : Nat → Nat) (k rF fuel : Nat),
      findValidBSlot emptyTaskB_cache draws k fuel = none ∧
      handleInterruptC A tick emptyTaskB_cache draws rF fuel = none := by
  intro A tick draws k rF fuel
  have hloop : ∀ (fuel k : Nat), findValidBSlot emptyTaskB_cache draws k fuel = none := by
    intro fuel
    induction fuel with
    | zero => intro k; rfl
    | succ n ih => intro k; simpa [findValidBSlot, emptyTaskB_cache] using ih (k + 1)
  exact ⟨hloop fuel k, by simp [handleInterruptC, hloop fuel 0]⟩

/-- Claim C5, counterexample.  On a cache where slots 0 and 1 both hold the
queried value with different B values, the scan reports both matches, so a
later matching slot is reported too, against the claim that only the first
match in slot-index order is reported. -/
theorem C5_counterexample_second_match_reported :
    handleInterruptG_results dupF 111111111111 =
      [⟨10, "aaaaaaaa".toList⟩, ⟨30, "bbbbbbbb".toList⟩] ∧
    (dupF 1).randomValueB ∈ handleInterruptG_results dupF 111111111111 ∧
    (handleInterruptG_results dupF 111111111111).length = 2 := by
  refine ⟨by decide, by decide, by decide⟩

/-- Claim C5 as amended: the loop of `handleInterruptG` does not stop at the
first match; every slot of the scanned range (indices 0..5) whose record
matches the query contributes its B value to the printed results, in
slot-index order. -/
theorem C5_every_scanned_match_reported (F : Nat → valueE_t) (q : Int)
    (i : Nat) (hi : i < SIZE_OF_VALUE_E_STRUCTURE - 1)
    (hm : (F i).currentValueD.randomNumber = q) :
    (F i).randomValueB ∈ handleInterruptG_results F q :=
  mem_results_of_scanned_match F q i hi hm

/-- Witness for claim C5: slot 1 of `dupF` matches the query and is indeed
among the reported results. -/
theorem C5_witness :
    (dupF 1).randomValueB ∈ handleInterruptG_results dupF 111111111111 :=
  C5_every_scanned_match_reported dupF 111111111111 1 (by decide) (by decide)

/-- Claim C6.  One tick of `privateTaskA` from two `rand()` draws (each a
non-negative `int`, hence below `2 ^ 31`): the combined wide draw stays
below `2 ^ 63` (so the C `int64_t` arithmetic has no overflow and the value
is non-negative), and the published value lies in the inclusive 12-digit
range [100000000000, 999999999999]. -/
theorem C6_fastvalue_in_twelve_digit_range (r1 r2 : Nat)
    (h1 : r1 < 2 ^ 31) (h2 : r2 < 2 ^ 31) :
    ((r1 <<< 32) ||| r2) < 2 ^ 63 ∧
    100000000000 ≤ privateTaskA_value r1 r2 ∧
    privateTaskA_value r1 r2 ≤ 999999999999 := by
  have h2' : r2 < 2 ^ 32 := lt_trans h2 (by norm_num)
  have hor : ((r1 <<< 32) ||| r2) < 2 ^ 63 := by
    simpa using Nat.append_lt h2' h1
  refine ⟨hor, ?_, ?_⟩
  · unfold privateTaskA_value
    omega
  · unfold privateTaskA_value
    have hmod := Nat.mod_lt ((r1 <<< 32) ||| r2)
      (show 0 < 899999999999 by norm_num)
    omega

/-- Witness for claim C6 at the draws 0 and 0. -/
theorem C6_witness :
    (0 : Nat) < 2 ^ 31 ∧
    100000000000 ≤ privateTaskA_value 0 0 ∧
    privateTaskA_value 0 0 ≤ 999999999999 :=
  ⟨by norm_num, (C6_fastvalue_in_twelve_digit_range 0 0 (by norm_num)
    (by norm_num)).2⟩

/-- Claim C7, counterexample.  The token built by `privateTaskB` is
`generateRandomString(s, NUMBER_OF_ALPHANUMERIC_DIGITS)` with
`NUMBER_OF_ALPHANUMERIC_DIGITS = 8`: at the all-zero draw sequence its
length is 8, not 7 as the claim states. -/
theorem C7_counterexample_token_has_eight_chars :
    (generateRandomString (fun _ => 0) NUMBER_OF_ALPHANUMERIC_DIGITS).length = 8 ∧
    (generateRandomString (fun _ => 0) NUMBER_OF_ALPHANUMERIC_DIGITS).length ≠ 7 := by
  refine ⟨by decide, by decide⟩

/-- Claim C7 as amended: every generated token has exactly
`NUMBER_OF_ALPHANUMERIC_DIGITS = 8` characters, each drawn (via
`rand() % charsetLength`) from the fixed 62-character alphanumeric
alphabet. -/
theorem C7_token_length_and_alphabet (draws : Nat → Nat) :
    (generateRandomString draws NUMBER_OF_ALPHANUMERIC_DIGITS).length = 8 ∧
    charsetLength = 62 ∧
    ∀ c ∈ generateRandomString draws NUMBER_OF_ALPHANUMERIC_DIGITS,
      c ∈ charset := by
  refine ⟨by simp [generateRandomString, NUMBER_OF_ALPHANUMERIC_DIGITS],
    by decide, ?_⟩
  intro c hc
  unfold generateRandomString at hc
  obtain ⟨i, hi, rfl⟩ := List.mem_map.mp hc
  have hk : draws i % charsetLength < charset.length :=
    Nat.mod_lt (draws i) (by decide)
  rw [List.getD_eq_getElem charset 'a' hk]
  exact List.getElem_mem hk

/-- Witness for claim C7: at the all-zero draws the token is made of the
first alphabet character, which is in the alphabet. -/
theorem C7_witness :
    'a' ∈ generateRandomString (fun _ => 0) NUMBER_OF_ALPHANUMERIC_DIGITS ∧
    'a' ∈ charset :=
  ⟨by decide, (C7_token_length_and_alphabet (fun _ => 0)).2.2 'a' (by decide)⟩

/-- Claim C8.  A capture that returns a record `e` stored into slot `slotF`
pairs the snapshot value `A` with the B value copied from the occupied
B slot the loop found, and the destination slot is always inside the scanned
range of the lookup (both draws use the same narrowed bound 6): an
immediate lookup on the updated cache for the captured value reports found,
and the reported results contain exactly the token string and generation
timestamp paired at capture time. -/
theorem C8_capture_lookup_roundtrip (A : Int) (tick : Nat)
    (B : Nat → taskBStructure_t) (F : Nat → valueE_t) (draws : Nat → Nat)
    (rF fuel slotF : Nat) (e : valueE_t)
    (hc : handleInterruptC A tick B draws rF fuel = some (slotF, e)) :
    (∃ b, findValidBSlot B draws 0 fuel = some b ∧
        e = ⟨B b, ⟨tick, A⟩⟩) ∧
    slotF < SIZE_OF_VALUE_E_STRUCTURE - 1 ∧
    e.currentValueD.randomNumber = A ∧
    e.randomValueB ∈ handleInterruptG_results (updateSlotF F slotF e) A ∧
    handleInterruptG_found (updateSlotF F slotF e) A = true := by
  unfold handleInterruptC at hc
  cases hfind : findValidBSlot B draws 0 fuel with
  | none => rw [hfind] at hc; exact absurd hc (by simp)
  | some b =>
    rw [hfind] at hc
    simp only [Option.some.injEq, Prod.mk.injEq] at hc
    obtain ⟨hslot, he⟩ := hc
    subst hslot
    subst he
    have hlt : handleInterruptC_slotF rF < SIZE_OF_VALUE_E_STRUCTURE - 1 :=
      Nat.mod_lt rF (by decide)
    have hslotval :
        updateSlotF F (handleInterruptC_slotF rF) ⟨B b, ⟨tick, A⟩⟩
            (handleInterruptC_slotF rF) = ⟨B b, ⟨tick, A⟩⟩ := by
      simp [updateSlotF]
    have hmem : (⟨B b, ⟨tick, A⟩⟩ : valueE_t).randomValueB ∈
        handleInterruptG_results
          (updateSlotF F (handleInterruptC_slotF rF) ⟨B b, ⟨tick, A⟩⟩) A := by
      have := mem_results_of_scanned_match
        (updateSlotF F (handleInterruptC_slotF rF) ⟨B b, ⟨tick, A⟩⟩) A
        (handleInterruptC_slotF rF) hlt (by rw [hslotval])
      rwa [hslotval] at this
    refine ⟨⟨b, rfl, rfl⟩, hlt, rfl, hmem, ?_⟩
    unfold handleInterruptG_found
    have hne := List.ne_nil_of_mem hmem
    simpa [List.isEmpty_iff] using hne

/-- Witness for claim C8, at the scenario of the design notes: a capture at
value 555555555555, tick 20, on a B cache whose only occupied slot is
slot 2, stored into F slot 0 of an otherwise empty cache; the immediate
lookup for 555555555555 reports the captured token. -/
theorem C8_witness :
    scenarioE.currentValueD.randomNumber = 555555555555 ∧
    scenarioE.randomValueB ∈
      handleInterruptG_results (updateSlotF (fun _ => emptyE) 0 scenarioE)
        555555555555 := by
  have h := C8_capture_lookup_roundtrip 555555555555 20 scenarioB
    (fun _ => emptyE) (fun _ => 2) 0 1 0 scenarioE (by decide)
  exact ⟨h.2.2.1, h.2.2.2.1⟩

/-- Claim C9.  The loop of `handleInterruptC` treats a B slot as occupied
exactly when its stored `stringTime` is non-zero: a slot whose timestamp is
zero is never the slot returned for pairing, and replacing such a slot by a
never-written one changes nothing about the selection. -/
theorem C9_zero_timestamp_slot_never_paired (B : Nat → taskBStructure_t)
    (j : Nat) (hj : (B j).stringTime = 0) :
    (∀ (draws : Nat → Nat) (k fuel i : Nat),
        findValidBSlot B draws k fuel = some i →
          (B i).stringTime ≠ 0 ∧ i ≠ j) ∧
    (∀ (draws : Nat → Nat) (k fuel : Nat),
        findValidBSlot B draws k fuel =
          findValidBSlot (fun i => if i = j then ⟨0, []⟩ else B i)
            draws k fuel) := by
  constructor
  · intro draws k fuel
    induction fuel generalizing k with
    | zero => intro i h; simp [findValidBSlot] at h
    | succ n ih =>
      intro i h
      simp only [findValidBSlot] at h
      by_cases hz :
          (B (generateIntRandomNumber SIZE_OF_THE_TASK_B_ARRAY (draws k))).stringTime = 0
      · rw [if_pos hz] at h
        exact ih (k + 1) i h
      · rw [if_neg hz] at h
        obtain rfl := (Option.some.injEq _ _).mp h.symm
        refine ⟨by simpa using hz, ?_⟩
        intro hij
        exact hz (by rw [← hij] at hj; simpa using hj)
  · intro draws k fuel
    induction fuel generalizing k with
    | zero => rfl
    | succ n ih =>
      simp only [findValidBSlot]
      by_cases hz :
          (B (generateIntRandomNumber SIZE_OF_THE_TASK_B_ARRAY (draws k))).stringTime = 0
      · have hz' :
            ((fun i => if i = j then (⟨0, []⟩ : taskBStructure_t) else B i)
              (generateIntRandomNumber SIZE_OF_THE_TASK_B_ARRAY (draws k))).stringTime = 0 := by
          by_cases hij : generateIntRandomNumber SIZE_OF_THE_TASK_B_ARRAY (draws k) = j
          · simp [hij]
          · simpa [hij] using hz
        rw [if_pos hz, if_pos hz']
        exact ih (k + 1)
      · have hz' :
            ¬ ((fun i => if i = j then (⟨0, []⟩ : taskBStructure_t) else B i)
              (generateIntRandomNumber SIZE_OF_THE_TASK_B_ARRAY (draws k))).stringTime = 0 := by
          by_cases hij : generateIntRandomNumber SIZE_OF_THE_TASK_B_ARRAY (draws k) = j
          · exact absurd (by rw [← hij] at hj; simpa using hj) hz
          · simpa [hij] using hz
        rw [if_neg hz, if_neg hz']

/-- Witness for claim C9: in `scenarioB` slot 0 has timestamp zero, and
replacing it by a never-written slot does not change the selection. -/
theorem C9_witness :
    (scenarioB 0).stringTime = 0 ∧
    findValidBSlot scenarioB (fun _ => 2) 0 1 =
      findValidBSlot (fun i => if i = 0 then ⟨0, []⟩ else scenarioB i)
        (fun _ => 2) 0 1 :=
  ⟨rfl, (C9_zero_timestamp_slot_never_paired scenarioB 0 rfl).2
    (fun _ => 2) 0 1⟩

/-- Folding `writeToFileE` from a present file and a non-zero counter only
appends, one line per record, numbering consecutively from the counter. -/
theorem writeToFileE_foldl_append (recs : List valueE_t)
    (l : List (Nat × valueE_t)) (n : Nat) (hn : n ≠ 0) :
    recs.foldl writeToFileE (⟨true, l⟩, n) =
      (⟨true, l ++ numberedFrom n recs⟩, n + recs.length) := by
  induction recs generalizing l n with
  | nil => simp [numberedFrom]
  | cons e es ih =>
    have hstep : writeToFileE (⟨true, l⟩, n) e = (⟨true, l ++ [(n, e)]⟩, n + 1) := by
      simp [writeToFileE, hn]
    rw [List.foldl_cons, hstep, ih (l ++ [(n, e)]) (n + 1) (Nat.succ_ne_zero n)]
    simp [numberedFrom]
    omega

/-- Claim C10.  A run of appends started by `main_payrange` (line counter
initialised to 0): the first append takes the truncate branch whatever the
previous state of `E.txt` was, so the resulting file holds exactly the
records of this run, numbered 0, 1, 2, ... in order, and the counter ends at
the number of appends. -/
theorem C10_first_append_truncates_then_lines_sequential
    (fs0 : FileState) (e : valueE_t) (recs : List valueE_t) :
    runAppends fs0 (e :: recs) =
      (⟨true, numberedFrom 0 (e :: recs)⟩, (e :: recs).length) := by
  unfold runAppends
  have hfirst : writeToFileE (fs0, 0) e = (⟨true, [(0, e)]⟩, 1) := by
    simp [writeToFileE]
  rw [List.foldl_cons, hfirst,
    writeToFileE_foldl_append recs [(0, e)] 1 one_ne_zero]
  simp [numberedFrom, Nat.add_comm]

end PayRange
